import Mathlib

/-!
Verification of the AI contract-generation pipeline of `services/ai_service.py`
(context extractor, prompt builder, provider chain, output sanitizer, static
template fallback).  Python strings are modelled as `String` / `List Char`;
Python `None` as `Option`; a raised exception as `Option.none` / `Except.error`.
-/

set_option maxHeartbeats 1000000
set_option maxRecDepth 100000

/-- Characters stripped by Python `str.strip()` (the `str.isspace()` set). -/
def isPySpace (c : Char) : Bool :=
  (0x09 ≤ c.toNat && c.toNat ≤ 0x0d) || c.toNat = 0x20 ||
  (0x1c ≤ c.toNat && c.toNat ≤ 0x1f) || c.toNat = 0x85 || c.toNat = 0xa0 ||
  c.toNat = 0x1680 || (0x2000 ≤ c.toNat && c.toNat ≤ 0x200a) ||
  c.toNat = 0x2028 || c.toNat = 0x2029 || c.toNat = 0x202f ||
  c.toNat = 0x205f || c.toNat = 0x3000

/-- Line boundaries recognised by Python `str.splitlines()` (besides `\r\n`). -/
def isLineBoundary (c : Char) : Bool :=
  c.toNat = 0x0a || c.toNat = 0x0b || c.toNat = 0x0c || c.toNat = 0x0d ||
  c.toNat = 0x1c || c.toNat = 0x1d || c.toNat = 0x1e || c.toNat = 0x85 ||
  c.toNat = 0x2028 || c.toNat = 0x2029

/-- Python `str.lstrip()`. -/
def lstripL (l : List Char) : List Char := l.dropWhile isPySpace

/-- Python `str.rstrip()`. -/
def rstripL (l : List Char) : List Char := (l.reverse.dropWhile isPySpace).reverse

/-- Python `str.strip()`. -/
def stripL (l : List Char) : List Char := rstripL (lstripL l)

/-- Position of the first occurrence of `pat` in `l` (Python `str.find`,
with `none` for `-1`). -/
def findSub (pat : List Char) : List Char → Option Nat
  | [] => if pat.isPrefixOf ([] : List Char) then some 0 else none
  | c :: rest =>
    if pat.isPrefixOf (c :: rest) then some 0
    else (findSub pat rest).map (· + 1)

/-- Python `pat in s` for substrings. -/
def hasSubstrL (pat l : List Char) : Bool := (findSub pat l).isSome

/-- Split on non-overlapping occurrences of `sep`, scanning left to right
(Python `str.split(sep)` for non-empty `sep`).  `fuel` bounds recursion;
it is always called with `fuel = l.length`. -/
def splitFuel (sep : List Char) : Nat → List Char → List Char → List (List Char)
  | _, [], acc => [acc.reverse]
  | 0, l, acc => [acc.reverse ++ l]
  | fuel + 1, c :: rest, acc =>
    if sep.isPrefixOf (c :: rest) then
      acc.reverse :: splitFuel sep fuel (rest.drop (sep.length - 1)) []
    else
      splitFuel sep fuel rest (c :: acc)

/-- Python `s.split(sep)` for non-empty `sep`. -/
def splitL (sep l : List Char) : List (List Char) := splitFuel sep l.length l []

/-- Python `sep.join(parts)`. -/
def joinSep (sep : List Char) : List (List Char) → List Char
  | [] => []
  | [x] => x
  | x :: y :: ys => x ++ sep ++ joinSep sep (y :: ys)

/-- Python `s.replace(pat, '')` for non-empty `pat`. -/
def removeAll (pat l : List Char) : List Char := joinSep [] (splitL pat l)

/-- Python `str.splitlines()`. -/
def splitlinesAux : List Char → List Char → List (List Char)
  | [], acc => if acc.isEmpty then [] else [acc.reverse]
  | '\r' :: '\n' :: rest, acc => acc.reverse :: splitlinesAux rest []
  | '\r' :: rest, acc => acc.reverse :: splitlinesAux rest []
  | c :: rest, acc =>
    if isLineBoundary c then
      acc.reverse :: splitlinesAux rest []
    else
      splitlinesAux rest (c :: acc)

/-- Python `str.splitlines()`. -/
def splitlinesL (l : List Char) : List (List Char) := splitlinesAux l []

/-- Python `line.split(':', 1)[1]`: everything after the first `':'`
(requires `':' ∈ line`). -/
def afterColonL (l : List Char) : List Char := (l.dropWhile (· ≠ ':')).tail

/-! ## The output sanitizer `clean_ai_output` (ai_service.py lines 73-161) -/

/-- Step 1 artifact list (source lines 82-87). -/
def artifacts : List (List Char) :=
  [("**").data, ("```").data, ("---").data, ("###").data, ("___").data,
   ("[ملاحظة]").data, ("[ملاحظات]").data, ("[نهاية العقد]").data,
   ("ملاحظة:").data, ("ملاحظات:").data, ("المرفقات:").data,
   ("شهادة المنشأ:").data, ("شهادة التأمين:").data]

/-- Step 2 ending markers with their trailing allowances (source lines 92-98). -/
def end_markers : List (List Char × Nat) :=
  [(("والله ولي التوفيق").data, 300),
   (("تحرر هذا العقد من نسختين").data, 150),
   (("توقيع الطرف الأول").data, 200),
   (("التوقيعات:").data, 200),
   (("الطرف الأول:").data, 250)]

def step1 (l : List Char) : List Char :=
  artifacts.foldl (fun acc pat => removeAll pat acc) l

/-- Source lines 100-106: fold of `best_cut` over the markers. -/
def bestCutAux (l : List Char) (ms : List (List Char × Nat)) (best : Nat) : Nat :=
  ms.foldl
    (fun b me =>
      match findSub me.1 l with
      | some pos => min b (min (pos + me.1.length + me.2) l.length)
      | none => b)
    best

def bestCut (l : List Char) : Nat := bestCutAux l end_markers l.length

/-- Step 3 (source lines 110-132): drop consecutive duplicate lines, collapse
blank runs.  `prev` models `prev_line` (`none` for Python `None`). -/
def step3Aux : List (List Char) → Option (List Char) → List (List Char)
  | [], _ => []
  | line :: rest, prev =>
    let stripped := stripL line
    if stripped = [] then
      if prev = some [] then step3Aux rest (some [])
      else [] :: step3Aux rest (some [])
    else if prev = some stripped then
      step3Aux rest prev
    else
      line :: step3Aux rest (some stripped)

def step3 (l : List Char) : List Char :=
  joinSep [('\n')] (step3Aux (splitL [('\n')] l) none)

/-- Paragraph fingerprint: first 50 chars of the stripped paragraph
(source line 144). -/
def fpOf (para : List Char) : List Char := (stripL para).take 50

/-- Step 4 (source lines 134-150): drop paragraphs with an already-seen
fingerprint. -/
def step4Aux : List (List Char) → List (List Char) → List (List Char)
  | [], _ => []
  | para :: rest, seen =>
    if stripL para = [] then step4Aux rest seen
    else if fpOf para ∈ seen then step4Aux rest seen
    else para :: step4Aux rest (fpOf para :: seen)

def step4 (l : List Char) : List Char :=
  joinSep [('\n'), ('\n')] (step4Aux (splitL [('\n'), ('\n')] l) [])

/-- Condition of the step-5 `while` loop (source line 156), on the stripped
last line. -/
def isIncompleteLine (line : List Char) : Bool :=
  let s := stripL line
  s.isEmpty ||
    (match s.getLast? with
     | some c => c = ':' || c = '[' || c = '('
     | none => false)

/-- Step 5 (source lines 152-159): pop trailing empty / incomplete lines. -/
def step5 (l : List Char) : List Char :=
  joinSep [('\n')]
    (((splitL [('\n')] l).reverse.dropWhile isIncompleteLine).reverse)

/-- `clean_ai_output` on character lists (ai_service.py lines 73-161). -/
def cleanL (l : List Char) : List Char :=
  if l = [] then l
  else
    let t1 := step1 l
    let t2 := stripL (t1.take (bestCut t1))
    let t3 := step3 t2
    let t4 := step4 t3
    stripL (step5 t4)

/-- `clean_ai_output` (ai_service.py lines 73-161). -/
def clean_ai_output (text : String) : String := String.mk (cleanL text.data)

/-! ## The context extractor `_extract_contract_context` (lines 331-384)

The Python raises `ValueError` when `items` is non-empty but strips to the
empty string (`first_line, *rest = text.splitlines()` unpacks an empty list);
this is modelled by `Option.none`. -/

structure ContractContext where
  scope : String
  ai_notes : Option String
  start_date : Option String
  duration : Option String
  payment_terms : Option String
  extra_clauses : Option String
deriving DecidableEq, Repr

/-- The `[ملاحظات AI]:` prefix checked on the first line (line 359). -/
def notesMarker : List Char := ("[ملاحظات AI]:").data

/-- The structural marker `--- التفاصيل التعاقدية ---` (line 363). -/
def detailsMarker : List Char := ("--- التفاصيل التعاقدية ---").data

/-- One iteration of the tail-parsing loop (lines 371-382). -/
def parseDetailLine (ctx : ContractContext) (raw_line : List Char) :
    ContractContext :=
  let line := stripL raw_line
  if line = [] then ctx
  else if (("تاريخ البداية:").data).isPrefixOf line then
    { ctx with start_date := some (String.mk (stripL (afterColonL line))) }
  else if (("المدة:").data).isPrefixOf line then
    { ctx with duration := some (String.mk (stripL (afterColonL line))) }
  else if (("شروط الدفع:").data).isPrefixOf line then
    { ctx with payment_terms := some (String.mk (stripL (afterColonL line))) }
  else if (("البنود الإضافية المطلوبة:").data).isPrefixOf line then
    { ctx with extra_clauses := some (String.mk (stripL (afterColonL line))) }
  else ctx

/-- `_extract_contract_context(items)` (lines 331-384); `none` models the
`ValueError` raised on non-empty all-whitespace input. -/
def extract_contract_context (items : String) : Option ContractContext :=
  let ctx0 : ContractContext :=
    { scope := String.mk (stripL items.data), ai_notes := none,
      start_date := none, duration := none,
      payment_terms := none, extra_clauses := none }
  if items.data = [] then some ctx0
  else
    let text := stripL items.data
    match splitlinesL text with
    | [] => none
    | first_line :: rest =>
      let notesVal : Option String :=
        if (':') ∈ first_line then
          some (String.mk (stripL (afterColonL first_line)))
        else none
      let withNotes :=
        if notesMarker.isPrefixOf (stripL first_line) then
          ({ ctx0 with ai_notes := notesVal },
           lstripL (joinSep [('\n')] rest))
        else (ctx0, text)
      let ctx1 := withNotes.1
      let text1 := withNotes.2
      match findSub detailsMarker text1 with
      | none => some { ctx1 with scope := String.mk (stripL text1) }
      | some pos =>
        let before := text1.take pos
        let after := text1.drop (pos + detailsMarker.length)
        let ctx2 := { ctx1 with scope := String.mk (stripL before) }
        some ((splitlinesL after).foldl parseDetailLine ctx2)

/-! ## The static template fallback `get_template_contract` (lines 267-328) -/

/-- Python truthiness of an optional string field. -/
def truthy : Option String → Bool
  | none => false
  | some s => s ≠ ""

/-- Body of the template f-string (lines 277-328), given an already-extracted
context.  `today` stands for `datetime.now().strftime('%Y/%m/%d')`. -/
def templateBody (supplier buyer price today : String)
    (context : ContractContext) : String :=
  let scope := context.scope
  let duration_text :=
    if truthy context.start_date && truthy context.duration then
      "تبدأ مدة العقد من تاريخ " ++ context.start_date.getD "" ++ " ولمدة " ++
        context.duration.getD "" ++
        "، ويلتزم الطرف الأول بالتوريد خلال هذه المدة."
    else if truthy context.start_date then
      "تبدأ مدة العقد من تاريخ " ++ context.start_date.getD "" ++
        "، ويلتزم الطرف الأول بالتوريد خلال المدة المتفق عليها."
    else if truthy context.duration then
      "مدة العقد: " ++ context.duration.getD "" ++
        "، ويلتزم الطرف الأول بالتوريد خلال هذه المدة."
    else "يلتزم الطرف الأول بالتوريد خلال المدة المتفق عليها."
  let payment_text :=
    if truthy context.payment_terms then
      "تُدفع وفقاً لشروط الدفع المتفق عليها: " ++
        context.payment_terms.getD "" ++ "."
    else "تُدفع عند استلام البضائع والتحقق من مطابقتها للمواصفات."
  let extra_section :=
    if truthy context.extra_clauses then
      "\n\nالبند السابع - بنود إضافية:\nيتفق الطرفان على تضمين البنود الإضافية التالية: " ++
        context.extra_clauses.getD "" ++ ".\n"
    else ""
  "بسم الله الرحمن الرحيم\n\nعقد توريد\n\nتم الاتفاق في " ++ today ++
    " بين:\n\nالطرف الأول (المورد): " ++ supplier ++
    "\nالطرف الثاني (المشتري): " ++ buyer ++
    "\n\nالبند الأول - موضوع العقد:\nيلتزم الطرف الأول بتوريد المواد التالية:\n" ++
    scope ++
    "\nوفقاً للمواصفات والمعايير القياسية المعتمدة.\n\nالبند الثاني - القيمة:\nالقيمة الإجمالية للعقد: " ++
    price ++ " ريال سعودي\n" ++ payment_text ++
    "\n\nالبند الثالث - مدة التوريد:\n" ++ duration_text ++
    "\n\nالبند الرابع - الضمانات:\nيضمن الطرف الأول جودة المنتجات لمدة سنة من تاريخ التسليم.\n\nالبند الخامس - القانون الواجب التطبيق:\nيخضع هذا العقد لأحكام نظام المعاملات المدنية السعودي الصادر بالمرسوم الملكي رقم م/191.\n\nالبند السادس - فض النزاعات:\nفي حال نشوء أي خلاف، يتم اللجوء أولاً للتسوية الودية، وإلا فالمحاكم السعودية المختصة." ++
    extra_section ++
    "\n\nتحرر هذا العقد من نسختين لكل طرف نسخة للعمل بموجبها.\n"

/-- `get_template_contract(supplier, buyer, items, price)` (lines 267-328);
`none` models the `ValueError` propagated from the extractor. -/
def get_template_contract (supplier buyer items price today : String) :
    Option String :=
  (extract_contract_context items).map (templateBody supplier buyer price today)

/-! ## Prompt builder (generate_contract_ai, lines 401-499) -/

/-- The base system prompt `system_base` (lines 404-420). -/
def system_base : String :=
  "أنت محامي سعودي. اكتب عقداً عربياً رسمياً مختصراً ومنظماً بصياغة حكومية واضحة.\n\nتنسيق الإخراج:\n- لا تستخدم Markdown ولا عناوين ### ولا علامات ``` ولا فواصل زخرفية.\n- ابدأ بـ \"بسم الله الرحمن الرحيم\" ثم عنوان العقد في سطر مستقل.\n- بعد التمهيد، اكتب 6–8 مواد مرقمة بصيغة \"المادة (1): ...\".\n- كل مادة جملة أو جملتين فقط، بدون تكرار.\n- اذكر البيانات المتفق عليها (البضائع/النطاق، المدة، تاريخ البداية، الدفع) ضمن المواد بشكل طبيعي.\n- إذا طُلبت بنود إضافية (مثل الشرط الجزائي أو القوة القاهرة) فخصص لها مادة واضحة.\n- اختم بـ \"والله ولي التوفيق\" ثم \"التوقيعات:\" وخانتين للتوقيع للطرفين.\n\nقيود:\n- لا تذكر عبارات مثل \"[ملاحظات AI]\" أو \"--- التفاصيل التعاقدية ---\" ولا تنسخها حرفياً.\n- لا تكتب شهادات أو مرفقات أو ملاحظات ختامية خارج نطاق العقد.\n\nالمرجع القانوني: نظام المعاملات المدنية السعودي (م/191)\n"

/-- The shared conditional suffix of the user prompt for the service, rental
and supply branches (lines 450-459, 470-479, 490-499). -/
def commonUserSuffix (context : ContractContext) : String :=
  (if truthy context.start_date then
     "\nتاريخ البداية: " ++ context.start_date.getD "" else "") ++
  (if truthy context.duration then
     "\nالمدة: " ++ context.duration.getD "" else "") ++
  (if truthy context.payment_terms then
     "\nشروط الدفع: " ++ context.payment_terms.getD "" else "") ++
  (if truthy context.extra_clauses then
     "\nبنود إضافية مطلوبة: " ++ context.extra_clauses.getD "" else "") ++
  (if truthy context.ai_notes then
     "\nملاحظات: " ++ context.ai_notes.getD "" else "")

/-- Construction of `(prompt_system, prompt_user)` by contract type
(lines 422-499).  Any `contract_type` other than `nda`, `service`, `rental`
falls to the default supply branch. -/
def buildPrompt (contract_type supplier buyer price : String)
    (context : ContractContext) : String × String :=
  if contract_type = "nda" then
    (system_base ++
       "\nالنوع: اتفاقية عدم إفصاح. المواد: تعريف السرية، الالتزامات، الاستثناءات، المدة، الجزاءات.",
     "اتفاقية عدم إفصاح:\nالطرف المفصح: " ++ supplier ++
       "\nالطرف المتلقي: " ++ buyer ++ "\nالنطاق: " ++ context.scope ++
       (if truthy context.duration then
          "\nالمدة: " ++ context.duration.getD ""
        else "\nالمدة: " ++ price ++ " سنة") ++
       (if truthy context.extra_clauses then
          "\nبنود إضافية مطلوبة: " ++ context.extra_clauses.getD "" else "") ++
       (if truthy context.ai_notes then
          "\nملاحظات: " ++ context.ai_notes.getD "" else ""))
  else if contract_type = "service" then
    (system_base ++
       "\nالنوع: عقد خدمات. المواد: نطاق العمل، المدة، القيمة، الدفع، الجودة، الإنهاء.",
     "عقد خدمات:\nمقدم الخدمة: " ++ supplier ++ "\nالعميل: " ++ buyer ++
       "\nالخدمات/النطاق: " ++ context.scope ++ "\nالقيمة: " ++ price ++
       " ريال" ++ commonUserSuffix context)
  else if contract_type = "rental" then
    (system_base ++
       "\nالنوع: عقد إيجار. المواد: وصف العين، المدة، القيمة، الصيانة، الإخلاء.",
     "عقد إيجار:\nالمؤجر: " ++ supplier ++ "\nالمستأجر: " ++ buyer ++
       "\nوصف العين/النطاق: " ++ context.scope ++ "\nالأجرة: " ++ price ++
       " ريال" ++ commonUserSuffix context)
  else
    (system_base ++
       "\nالنوع: عقد توريد. المواد: البضائع، الكمية، السعر، التسليم، الضمان، الجزاءات.",
     "عقد توريد:\nالمورد: " ++ supplier ++ "\nالمشتري: " ++ buyer ++
       "\nالبضائع/نطاق التوريد: " ++ context.scope ++ "\nالقيمة: " ++ price ++
       " ريال" ++ commonUserSuffix context)

/-! ## Provider chain (generate_contract_ai, lines 501-519)

Each backend's network interaction is an oracle mapping the two prompts to
either the raw text extracted from a successful HTTP response or an error
(missing credential, timeout, HTTP error, malformed body all collapse to
`Except.error ()`, which the source handles identically). -/

structure ProviderEnv where
  groq : String → String → Except Unit String
  hf : String → String → Except Unit String
  kimi : String → String → Except Unit String

/-- `generate_with_groq` (lines 164-233): on success the raw completion text
is passed through `clean_ai_output` (line 218); every failure path raises. -/
def generate_with_groq (env : ProviderEnv) (prompt_system prompt_user : String) :
    Except Unit String :=
  (env.groq prompt_system prompt_user).map clean_ai_output

/-- `generate_with_allam_hf` (lines 32-70): returns `generated_text` verbatim. -/
def generate_with_allam_hf (env : ProviderEnv)
    (prompt_system prompt_user : String) : Except Unit String :=
  env.hf prompt_system prompt_user

/-- `generate_with_kimi` (lines 236-264): returns the completion verbatim. -/
def generate_with_kimi (env : ProviderEnv)
    (prompt_system prompt_user : String) : Except Unit String :=
  env.kimi prompt_system prompt_user

/-- The provider loop (lines 508-515): a successful result is returned only
if it is non-empty and longer than 100 characters; otherwise, like an
exception, the chain advances. -/
def attemptChain : List (Except Unit String) → Option String
  | [] => none
  | Except.ok r :: rest =>
    if r ≠ "" ∧ 100 < r.length then some r else attemptChain rest
  | Except.error _ :: rest => attemptChain rest

/-- `generate_contract_ai(supplier, buyer, items, price, contract_type)`
(lines 387-519).  `today` stands for `datetime.now()`; `Except.error ()`
models the uncaught `ValueError` from context extraction. -/
def generate_contract_ai (env : ProviderEnv)
    (supplier buyer items price contract_type today : String) :
    Except Unit String :=
  match extract_contract_context items with
  | none => Except.error ()
  | some context =>
    let pr := buildPrompt contract_type supplier buyer price context
    match attemptChain
        [generate_with_groq env pr.1 pr.2,
         generate_with_allam_hf env pr.1 pr.2,
         generate_with_kimi env pr.1 pr.2] with
    | some r => Except.ok r
    | none =>
      match get_template_contract supplier buyer items price today with
      | some t => Except.ok t
      | none => Except.error ()

/-- A provider environment in which every backend fails (credentials absent,
timeouts, HTTP errors or malformed responses). -/
def envAllFail : ProviderEnv :=
  { groq := fun _ _ => Except.error (),
    hf := fun _ _ => Except.error (),
    kimi := fun _ _ => Except.error () }

/-! ## Concrete inputs used in the example theorems -/

/-- Spec-side candidate cut positions: for every ending marker present in the
text, its position plus its length plus its trailing allowance (uncapped),
in marker order.  Modelled from the spec wording of §4.4 step 2 for
comparison with `bestCut`. -/
def specCandidates (l : List Char) : List Nat :=
  end_markers.filterMap
    (fun me => (findSub me.1 l).map (fun p => p + me.1.length + me.2))

def candidatesOf (ms : List (List Char × Nat)) (l : List Char) : List Nat :=
  ms.filterMap (fun me => (findSub me.1 l).map (fun p => p + me.1.length + me.2))

/-- `BODY + CLOSING_PHRASE + SIGNATURES + GARBAGE` sample for the early cut. -/
def earlyCutSample : String :=
  "نص العقد\n" ++ "والله ولي التوفيق" ++
    "\nالتوقيعات:\nتوقيع الطرف الأول\nتوقيع الطرف الثاني\n" ++
    String.mk (List.replicate 250 'z') ++ "QQQ"

/-- A text whose paragraph list is `[a^50, a^50 ++ "b", a^50 ++ "b"]`: the
paragraph `a^50 ++ "b"` occurs exactly twice, but an earlier distinct
paragraph shares its 50-character fingerprint. -/
def dupParaSample : List Char :=
  List.replicate 50 'a' ++ ("\n\n").data ++ (List.replicate 50 'a' ++ [('b')]) ++
    ("\n\n").data ++ (List.replicate 50 'a' ++ [('b')])

/-- The twice-repeated paragraph of `dupParaSample`. -/
def dupPara : List Char := List.replicate 50 'a' ++ [('b')]

/-- A provider environment whose every backend "succeeds" with the same fixed
raw text. -/
def envAllReturn (r : String) : ProviderEnv :=
  { groq := fun _ _ => Except.ok r,
    hf := fun _ _ => Except.ok r,
    kimi := fun _ _ => Except.ok r }

/-! ## Generic lemmas about the string helpers -/

theorem joinSep_cons_of_ne_nil (sep x : List Char) {ys : List (List Char)}
    (h : ys ≠ []) : joinSep sep (x :: ys) = x ++ sep ++ joinSep sep ys := by
  cases ys with
  | nil => exact absurd rfl h
  | cons y ys => rfl

theorem splitFuel_ne_nil (sep : List Char) :
    ∀ (fuel : Nat) (l acc : List Char), splitFuel sep fuel l acc ≠ [] := by
  intro fuel
  induction fuel with
  | zero =>
    intro l acc
    cases l <;> simp [splitFuel]
  | succ fuel ih =>
    intro l acc
    cases l with
    | nil => simp [splitFuel]
    | cons c rest =>
      rw [splitFuel]
      split
      · simp
      · exact ih rest (c :: acc)

theorem isPrefixOf_append_drop {sep l : List Char} (h : sep.isPrefixOf l) :
    sep ++ l.drop sep.length = l := by
  obtain ⟨t, ht⟩ := List.isPrefixOf_iff_prefix.mp h
  subst ht
  simp

theorem joinSep_splitFuel (sep : List Char) (hsep : sep ≠ []) :
    ∀ (fuel : Nat) (l acc : List Char), l.length ≤ fuel →
      joinSep sep (splitFuel sep fuel l acc) = acc.reverse ++ l := by
  intro fuel
  induction fuel with
  | zero =>
    intro l acc hl
    have : l = [] := List.eq_nil_of_length_eq_zero (Nat.le_zero.mp hl)
    subst this
    simp [splitFuel, joinSep]
  | succ fuel ih =>
    intro l acc hl
    cases l with
    | nil => simp [splitFuel, joinSep]
    | cons c rest =>
      rw [splitFuel]
      split
      · next hpre =>
        rw [joinSep_cons_of_ne_nil sep _ (splitFuel_ne_nil sep _ _ _)]
        have hfuel : (rest.drop (sep.length - 1)).length ≤ fuel := by
          have h1 := Nat.le_of_succ_le_succ (by simpa using hl)
          simp only [List.length_drop]
          omega
        rw [ih (rest.drop (sep.length - 1)) [] hfuel]
        have hd : (c :: rest).drop sep.length = rest.drop (sep.length - 1) := by
          cases sep with
          | nil => exact absurd rfl hsep
          | cons s ss => simp
        rw [List.reverse_nil, List.nil_append, ← hd, List.append_assoc,
          isPrefixOf_append_drop hpre]
      · next hpre =>
        rw [ih rest (c :: acc) (Nat.le_of_succ_le_succ hl)]
        simp

theorem joinSep_splitL (sep l : List Char) (hsep : sep ≠ []) :
    joinSep sep (splitL sep l) = l := by
  simpa using joinSep_splitFuel sep hsep l.length l [] (le_refl _)

theorem joinSep_length_mono_sep (s1 s2 : List Char) (h : s1.length ≤ s2.length) :
    ∀ xs : List (List Char), (joinSep s1 xs).length ≤ (joinSep s2 xs).length := by
  intro xs
  induction xs with
  | nil => simp [joinSep]
  | cons x ys ih =>
    cases ys with
    | nil => simp [joinSep]
    | cons y zs =>
      simp only [joinSep, List.length_append] at ih ⊢
      omega

theorem removeAll_length_le (pat l : List Char) (hpat : pat ≠ []) :
    (removeAll pat l).length ≤ l.length := by
  have h1 := joinSep_length_mono_sep [] pat (by simp) (splitL pat l)
  rw [joinSep_splitL pat l hpat] at h1
  simpa [removeAll] using h1

theorem foldl_removeAll_length_le :
    ∀ (pats : List (List Char)) (l : List Char), (∀ p ∈ pats, p ≠ []) →
      (pats.foldl (fun acc pat => removeAll pat acc) l).length ≤ l.length := by
  intro pats
  induction pats with
  | nil => intro l _; simp
  | cons p ps ih =>
    intro l hne
    simp only [List.foldl_cons]
    exact le_trans (ih (removeAll p l) fun q hq => hne q (List.mem_cons_of_mem _ hq))
      (removeAll_length_le p l (hne p (List.mem_cons_self _ _)))

theorem step1_length_le (l : List Char) : (step1 l).length ≤ l.length := by
  apply foldl_removeAll_length_le
  decide

theorem stripL_length_le (l : List Char) : (stripL l).length ≤ l.length := by
  have h1 : (lstripL l).length ≤ l.length := (List.dropWhile_sublist _).length_le
  have h2 : (rstripL (lstripL l)).length ≤ (lstripL l).length := by
    simpa [rstripL] using (List.dropWhile_sublist (l := (lstripL l).reverse)
      (p := isPySpace)).length_le
  exact le_trans h2 h1

/-- Pointwise-shorter sublist: `ys` arises from `xs` by dropping elements and
replacing kept elements by ones of no greater length. -/
inductive SubShorter : List (List Char) → List (List Char) → Prop
  | nil : SubShorter [] []
  | skip (x : List Char) {ys xs : List (List Char)} :
      SubShorter ys xs → SubShorter ys (x :: xs)
  | keep {b a : List Char} {ys xs : List (List Char)} :
      b.length ≤ a.length → SubShorter ys xs → SubShorter (b :: ys) (a :: xs)

theorem joinSep_length_le_tail (sep x : List Char) (xs : List (List Char)) :
    (joinSep sep xs).length ≤ (joinSep sep (x :: xs)).length := by
  cases xs with
  | nil => simp [joinSep]
  | cons y ys => simp only [joinSep, List.length_append]; omega

theorem joinSep_length_le_head (sep a : List Char) (xs : List (List Char)) :
    a.length ≤ (joinSep sep (a :: xs)).length := by
  cases xs with
  | nil => simp [joinSep]
  | cons y ys => simp [joinSep]

theorem SubShorter.joinSep_length_le (sep : List Char) :
    ∀ {ys xs : List (List Char)}, SubShorter ys xs →
      (joinSep sep ys).length ≤ (joinSep sep xs).length := by
  intro ys xs h
  induction h with
  | nil => simp
  | skip x h ih => exact le_trans ih (joinSep_length_le_tail sep x _)
  | @keep b a ys xs hba h ih =>
    cases ys with
    | nil =>
      simp only [joinSep]
      exact le_trans hba (joinSep_length_le_head sep a xs)
    | cons y ys' =>
      cases xs with
      | nil => cases h
      | cons x xs' =>
        simp only [joinSep, List.length_append] at ih ⊢
        omega

theorem SubShorter.of_sublist :
    ∀ {ys xs : List (List Char)}, List.Sublist ys xs → SubShorter ys xs := by
  intro ys xs h
  induction h with
  | slnil => exact .nil
  | cons x _ ih => exact .skip x ih
  | cons₂ x _ ih => exact .keep (le_refl _) ih

theorem step3Aux_subShorter :
    ∀ (lines : List (List Char)) (prev : Option (List Char)),
      SubShorter (step3Aux lines prev) lines := by
  intro lines
  induction lines with
  | nil => intro prev; exact .nil
  | cons line rest ih =>
    intro prev
    rw [step3Aux]
    by_cases h1 : stripL line = []
    · simp only [h1, if_pos rfl]
      by_cases h2 : prev = some []
      · simp only [if_pos h2]
        exact .skip line (ih _)
      · simp only [if_neg h2]
        exact .keep (Nat.zero_le _) (ih _)
    · simp only [if_neg h1]
      by_cases h2 : prev = some (stripL line)
      · simp only [if_pos h2]
        exact .skip line (ih _)
      · simp only [if_neg h2]
        exact .keep (le_refl _) (ih _)

theorem step4Aux_sublist :
    ∀ (paras seen : List (List Char)),
      List.Sublist (step4Aux paras seen) paras := by
  intro paras
  induction paras with
  | nil => intro seen; simp [step4Aux]
  | cons para rest ih =>
    intro seen
    rw [step4Aux]
    by_cases h1 : stripL para = []
    · simp only [if_pos h1]
      exact (ih seen).cons para
    · simp only [if_neg h1]
      by_cases h2 : fpOf para ∈ seen
      · simp only [if_pos h2]
        exact (ih seen).cons para
      · simp only [if_neg h2]
        exact (ih _).cons₂ para

theorem step3_length_le (l : List Char) : (step3 l).length ≤ l.length := by
  have hj := joinSep_splitL [('\n')] l (by simp)
  have h := (step3Aux_subShorter (splitL [('\n')] l) none).joinSep_length_le
    [('\n')]
  rw [hj] at h
  exact h

theorem step4_length_le (l : List Char) : (step4 l).length ≤ l.length := by
  have hj := joinSep_splitL [('\n'), ('\n')] l (by simp)
  have h := (SubShorter.of_sublist
    (step4Aux_sublist (splitL [('\n'), ('\n')] l) [])).joinSep_length_le
    [('\n'), ('\n')]
  rw [hj] at h
  exact h

theorem step5_length_le (l : List Char) : (step5 l).length ≤ l.length := by
  have hj := joinSep_splitL [('\n')] l (by simp)
  have hsub : List.Sublist
      (((splitL [('\n')] l).reverse.dropWhile isIncompleteLine).reverse)
      (splitL [('\n')] l) := by
    have h1 := List.dropWhile_sublist (l := (splitL [('\n')] l).reverse)
      (p := isIncompleteLine)
    simpa using h1.reverse
  have h := (SubShorter.of_sublist hsub).joinSep_length_le [('\n')]
  rw [hj] at h
  exact h

theorem cleanL_length_le (l : List Char) : (cleanL l).length ≤ l.length := by
  rw [cleanL]
  by_cases h : l = []
  · simp [h]
  · simp only [if_neg h]
    refine le_trans (stripL_length_le _) (le_trans (step5_length_le _) ?_)
    refine le_trans (step4_length_le _) (le_trans (step3_length_le _) ?_)
    refine le_trans (stripL_length_le _) ?_
    exact le_trans (by simp) (step1_length_le l)

/-! ## Lemmas about the early-termination cut (step 2) -/

theorem foldr_min_le_init (cs : List Nat) (a : Nat) : cs.foldr min a ≤ a := by
  induction cs with
  | nil => simp
  | cons c cs ih => simp only [List.foldr_cons]; omega

theorem foldr_min_le_mem {c : Nat} {cs : List Nat} (a : Nat) (h : c ∈ cs) :
    cs.foldr min a ≤ c := by
  induction cs with
  | nil => cases h
  | cons x cs ih =>
    simp only [List.foldr_cons]
    rcases List.mem_cons.mp h with h1 | h1
    · omega
    · have := ih h1; omega

theorem le_foldr_min {b a : Nat} {cs : List Nat} (hba : b ≤ a)
    (h : ∀ c ∈ cs, b ≤ c) : b ≤ cs.foldr min a := by
  induction cs with
  | nil => simpa
  | cons x cs ih =>
    simp only [List.foldr_cons]
    have h1 := h x (List.mem_cons_self _ _)
    have h2 := ih fun c hc => h c (List.mem_cons_of_mem _ hc)
    omega

theorem bestCutAux_eq (l : List Char) :
    ∀ (ms : List (List Char × Nat)) (b : Nat), b ≤ l.length →
      bestCutAux l ms b = min b ((candidatesOf ms l).foldr min l.length) := by
  intro ms
  induction ms with
  | nil =>
    intro b hb
    simp only [bestCutAux, List.foldl_nil, candidatesOf, List.filterMap_nil,
      List.foldr_nil]
    omega
  | cons me ms ih =>
    intro b hb
    cases hf : findSub me.1 l with
    | none =>
      have h1 : bestCutAux l (me :: ms) b = bestCutAux l ms b := by
        simp [bestCutAux, hf]
      have h2 : candidatesOf (me :: ms) l = candidatesOf ms l := by
        simp [candidatesOf, hf]
      rw [h1, h2, ih b hb]
    | some p =>
      have h1 : bestCutAux l (me :: ms) b =
          bestCutAux l ms (min b (min (p + me.1.length + me.2) l.length)) := by
        simp [bestCutAux, hf]
      have h2 : candidatesOf (me :: ms) l =
          (p + me.1.length + me.2) :: candidatesOf ms l := by
        simp [candidatesOf, hf]
      rw [h1, h2, ih _ (by omega)]
      have h3 := foldr_min_le_init (candidatesOf ms l) l.length
      simp only [List.foldr_cons]
      omega

theorem bestCut_eq_foldr (l : List Char) :
    bestCut l = (specCandidates l).foldr min l.length := by
  have h1 := bestCutAux_eq l end_markers l.length (le_refl _)
  have h2 : candidatesOf end_markers l = specCandidates l := rfl
  have h3 := foldr_min_le_init (specCandidates l) l.length
  rw [bestCut, h1, h2]
  omega

theorem take_min_length (l : List Char) (m : Nat) :
    l.take (min m l.length) = l.take m := by
  by_cases h : m ≤ l.length
  · rw [Nat.min_eq_left h]
  · rw [Nat.min_eq_right (by omega), List.take_length,
      List.take_of_length_le (by omega)]

theorem foldr_min_init_shift (c : Nat) (cs : List Nat) (a : Nat) :
    (c :: cs).foldr min a = min (cs.foldr min c) a := by
  apply le_antisymm
  · apply le_min
    · apply le_foldr_min
      · exact foldr_min_le_mem a (List.mem_cons_self _ _)
      · intro x hx
        exact foldr_min_le_mem a (List.mem_cons_of_mem _ hx)
    · exact foldr_min_le_init _ _
  · apply le_foldr_min (Nat.min_le_right _ _)
    intro x hx
    rcases List.mem_cons.mp hx with h1 | h1
    · subst h1
      exact le_trans (Nat.min_le_left _ _) (foldr_min_le_init _ _)
    · exact le_trans (Nat.min_le_left _ _) (foldr_min_le_mem c h1)

/-! ## Lemmas about duplicate-paragraph removal (step 4) -/

theorem step4Aux_count_zero (p : List Char) :
    ∀ (ps seen : List (List Char)), fpOf p ∈ seen →
      (step4Aux ps seen).count p = 0 := by
  intro ps
  induction ps with
  | nil => intro seen _; simp [step4Aux]
  | cons q rest ih =>
    intro seen hseen
    rw [step4Aux]
    by_cases h1 : stripL q = []
    · simp only [if_pos h1]
      exact ih seen hseen
    · simp only [if_neg h1]
      by_cases h2 : fpOf q ∈ seen
      · simp only [if_pos h2]
        exact ih seen hseen
      · simp only [if_neg h2]
        have hqp : q ≠ p := fun he => h2 (he ▸ hseen)
        rw [List.count_cons_of_ne (fun he => hqp he.symm)]
        exact ih _ (List.mem_cons_of_mem _ hseen)

theorem step4Aux_count_one (p : List Char) (hp : stripL p ≠ []) :
    ∀ (ps seen : List (List Char)), fpOf p ∉ seen →
      (∀ q ∈ ps, fpOf q = fpOf p → q = p) → 1 ≤ ps.count p →
      (step4Aux ps seen).count p = 1 := by
  intro ps
  induction ps with
  | nil => intro seen _ _ hcount; simp at hcount
  | cons q rest ih =>
    intro seen hseen huniq hcount
    by_cases hqp : q = p
    · subst hqp
      rw [step4Aux]
      simp only [if_neg hp, if_neg hseen]
      rw [List.count_cons_self]
      rw [step4Aux_count_zero q rest _ (List.mem_cons_self _ _)]
    · have hfq : fpOf q ≠ fpOf p := fun he =>
        hqp (huniq q (List.mem_cons_self _ _) he)
      have hcount' : 1 ≤ rest.count p := by
        rwa [List.count_cons_of_ne (fun he => hqp he.symm)] at hcount
      have huniq' : ∀ r ∈ rest, fpOf r = fpOf p → r = p := fun r hr =>
        huniq r (List.mem_cons_of_mem _ hr)
      rw [step4Aux]
      by_cases h1 : stripL q = []
      · simp only [if_pos h1]
        exact ih seen hseen huniq' hcount'
      · simp only [if_neg h1]
        by_cases h2 : fpOf q ∈ seen
        · simp only [if_pos h2]
          exact ih seen hseen huniq' hcount'
        · simp only [if_neg h2]
          rw [List.count_cons_of_ne (fun he => hqp he.symm)]
          refine ih _ ?_ huniq' hcount'
          intro hmem
          rcases List.mem_cons.mp hmem with h3 | h3
          · exact hfq h3.symm
          · exact hseen h3

/-! ## Claim theorems -/

/-- C10: the sanitizer never lengthens its input: for every string `x`, the
length of `clean_ai_output x` is at most the length of `x` (every stage only
removes characters, truncates, or drops lines and paragraphs). -/
theorem claim_C10 (s : String) : (clean_ai_output s).length ≤ s.length :=
  cleanL_length_le s.data

/-- C3 counterexample: the sanitizer is not idempotent.  On `"-###--"`,
removing the `###` artifact merges the surrounding dashes into a new `---`
artifact, which only a second application removes: the first application
yields `"---"`, the second yields `""`. -/
theorem claim_C3_counterexample :
    clean_ai_output (clean_ai_output "-###--") ≠ clean_ai_output "-###--" := by
  decide

/-- C3 amended: `clean_ai_output` is not idempotent (see the counterexample);
what does hold is that reapplying it never lengthens the text:
`clean_ai_output (clean_ai_output x)` is never longer than
`clean_ai_output x`. -/
theorem claim_C3_amended (s : String) :
    (clean_ai_output (clean_ai_output s)).length ≤ (clean_ai_output s).length :=
  cleanL_length_le (clean_ai_output s).data

/-- C2: the claim says `_extract_contract_context` never raises, for every
string input including whitespace-only strings; the code however raises
`ValueError` on any non-empty all-whitespace input, because
`first_line, *rest = text.splitlines()` unpacks the empty list
(modelled by `none`).  Evaluating the embedding at the failing input
`" "` exhibits the bug. -/
theorem claim_C2 : extract_contract_context " " = none := by decide

/-- C1: the claim says `generate_contract_ai` never raises when all backends
fail and falls back to the template; the code however raises `ValueError`
out of `_extract_contract_context(items)` (line 401, outside any
`try`) when `items` is non-empty whitespace, before any backend or the
template is reached.  Evaluating the embedding at the failing input shows
the error escaping. -/
theorem claim_C1 :
    generate_contract_ai envAllFail "شركة أ" "شركة ب" " " "1000" "supply"
      "2025/01/01" = Except.error () := by rfl

/-- C6: the early-termination cut truncates at the minimum candidate cut
position over all ending markers present, each candidate being the marker's
position plus its length plus its marker-specific trailing allowance; with
no marker present there is no truncation; and on a
`BODY + closing phrase + signatures + garbage` text the output keeps the
closing phrase and the signature lines inside the allowance while the
garbage past the cut is gone. -/
theorem claim_C6 :
    (∀ l : List Char, bestCut l = (specCandidates l).foldr min l.length) ∧
    (∀ (l : List Char) (c : Nat) (cs : List Nat), specCandidates l = c :: cs →
      l.take (bestCut l) = l.take (cs.foldr min c)) ∧
    (∀ l : List Char, specCandidates l = [] → l.take (bestCut l) = l) ∧
    (hasSubstrL ("والله ولي التوفيق").data (cleanL earlyCutSample.data) = true ∧
     hasSubstrL ("توقيع الطرف الثاني").data (cleanL earlyCutSample.data) = true ∧
     hasSubstrL ("QQQ").data (cleanL earlyCutSample.data) = false) := by
  refine ⟨bestCut_eq_foldr, ?_, ?_, by decide⟩
  · intro l c cs h
    rw [bestCut_eq_foldr, h, foldr_min_init_shift, take_min_length]
  · intro l h
    rw [bestCut_eq_foldr, h]
    simp

/-- C6 witness: a concrete marker-free text is left untruncated. -/
theorem claim_C6_witness :
    ("hello").data.take (bestCut ("hello").data) = ("hello").data :=
  claim_C6.2.2.1 ("hello").data (by decide)

/-- C7 counterexample: in `dupParaSample` the paragraph `dupPara`
(`"a"*50 ++ "b"`) occurs exactly twice, and the two copies share their
fingerprint; yet the sanitized output contains no occurrence of it at all,
because an earlier, different paragraph (`"a"*50`) has the same
50-character fingerprint and steals the slot. -/
theorem claim_C7_counterexample :
    (splitL (("\n\n").data) dupParaSample).count dupPara = 2 ∧
    hasSubstrL dupPara (cleanL dupParaSample) = false := by decide

/-- C7 amended: if a paragraph `p` occurs exactly twice in the blank-line
paragraph list of the text, is non-blank, and no *other* paragraph shares
its fingerprint (first 50 characters of the stripped paragraph), then
duplicate-paragraph removal keeps exactly one occurrence of `p`; and the
removal always preserves first-occurrence order (its output is a sublist
of its input). -/
theorem claim_C7_amended (t p : List Char) (hp : stripL p ≠ [])
    (h2 : (splitL (("\n\n").data) t).count p = 2)
    (huniq : ∀ q ∈ splitL (("\n\n").data) t, fpOf q = fpOf p → q = p) :
    (step4Aux (splitL (("\n\n").data) t) []).count p = 1 ∧
    List.Sublist (step4Aux (splitL (("\n\n").data) t) [])
      (splitL (("\n\n").data) t) := by
  constructor
  · exact step4Aux_count_one p hp _ [] (by simp) huniq (by omega)
  · exact step4Aux_sublist _ _

/-- C7 witness: concrete instance `"A\n\nB\n\nA"` with `p = "A"`. -/
theorem claim_C7_witness :
    (step4Aux (splitL (("\n\n").data) (("A\n\nB\n\nA").data)) []).count
      (("A").data) = 1 ∧
    List.Sublist (step4Aux (splitL (("\n\n").data) (("A\n\nB\n\nA").data)) [])
      (splitL (("\n\n").data) (("A\n\nB\n\nA").data)) :=
  claim_C7_amended (("A\n\nB\n\nA").data) (("A").data) (by decide) (by decide)
    (by decide)

/-- C4 counterexample: with every backend failing, `contract_type = "nda"`
and `price = "3"` (no duration in the context), the code does *not* return
an NDA template variant with a price-derived confidentiality duration: it
returns the generic supply template (`"عقد توريد"`), which mentions neither
`"3 سنة"` (the price-as-duration phrase the NDA *prompt* would use) nor
`"عدم إفصاح"`. -/
theorem claim_C4_counterexample :
    (generate_contract_ai envAllFail "شركة أ" "شركة ب" "مواد سرية" "3" "nda"
        "2025/01/01").toOption.map
      (fun t => hasSubstrL (("3 سنة").data) t.data) = some false ∧
    (generate_contract_ai envAllFail "شركة أ" "شركة ب" "مواد سرية" "3" "nda"
        "2025/01/01").toOption.map
      (fun t => hasSubstrL (("عدم إفصاح").data) t.data) = some false ∧
    (generate_contract_ai envAllFail "شركة أ" "شركة ب" "مواد سرية" "3" "nda"
        "2025/01/01").toOption.map
      (fun t => hasSubstrL (("عقد توريد").data) t.data) = some true := by
  refine ⟨?_, ?_, ?_⟩ <;> decide

/-- C4 amended: when every backend fails, `generate_contract_ai` returns the
generic supply template `get_template_contract(supplier, buyer, items,
price)` regardless of `contract_type`; the price-as-duration substitution
for NDAs exists only in the prompt sent to the backends, never in the
fallback output. -/
theorem claim_C4_amended (env : ProviderEnv)
    (hg : ∀ ps pu, env.groq ps pu = Except.error ())
    (hh : ∀ ps pu, env.hf ps pu = Except.error ())
    (hk : ∀ ps pu, env.kimi ps pu = Except.error ())
    (supplier buyer items price contract_type today : String)
    (ctx : ContractContext)
    (hx : extract_contract_context items = some ctx) :
    generate_contract_ai env supplier buyer items price contract_type today =
      Except.ok (templateBody supplier buyer price today ctx) := by
  rw [generate_contract_ai, hx]
  simp [generate_with_groq, generate_with_allam_hf, generate_with_kimi,
    hg, hh, hk, attemptChain, get_template_contract, hx]

/-- C4 witness: concrete all-failing environment, `contract_type = "nda"`,
`price = "3"`. -/
theorem claim_C4_amended_witness :
    generate_contract_ai envAllFail "أ" "ب" "بضائع" "3" "nda" "2025/01/01" =
      Except.ok (templateBody "أ" "ب" "3" "2025/01/01"
        { scope := "بضائع", ai_notes := none, start_date := none,
          duration := none, payment_terms := none, extra_clauses := none }) :=
  claim_C4_amended envAllFail (fun _ _ => rfl) (fun _ _ => rfl)
    (fun _ _ => rfl) "أ" "ب" "بضائع" "3" "nda" "2025/01/01" _ (by decide)

theorem attemptChain_ok_short (r : String) (hr : r.length ≤ 100)
    (rest : List (Except Unit String)) :
    attemptChain (Except.ok r :: rest) = attemptChain rest := by
  rw [attemptChain, if_neg]
  rintro ⟨-, h⟩
  omega

theorem attemptChain_error (e : Unit) (rest : List (Except Unit String)) :
    attemptChain (Except.error e :: rest) = attemptChain rest := rfl

/-- C5: a backend result of at most 100 characters is never returned as a
success: the chain treats it exactly like a failed backend (first
conjunct), the loop skips it (second conjunct), and if every backend
returns such a short text the template fallback is used (third
conjunct). -/
theorem claim_C5 (env : ProviderEnv) (r : String) (hr : r.length ≤ 100)
    (hg : env.groq = fun _ _ => Except.ok r)
    (supplier buyer items price contract_type today : String) :
    generate_contract_ai env supplier buyer items price contract_type today =
      generate_contract_ai { env with groq := fun _ _ => Except.error () }
        supplier buyer items price contract_type today ∧
    (∀ rest, attemptChain (Except.ok r :: rest) = attemptChain rest) ∧
    (∀ ctx, extract_contract_context items = some ctx →
      generate_contract_ai (envAllReturn r) supplier buyer items price
        contract_type today =
        Except.ok (templateBody supplier buyer price today ctx)) := by
  have hcl : (clean_ai_output r).length ≤ 100 :=
    le_trans (cleanL_length_le r.data) hr
  refine ⟨?_, fun rest => attemptChain_ok_short r hr rest, ?_⟩
  · rw [generate_contract_ai, generate_contract_ai]
    cases hx : extract_contract_context items with
    | none => rfl
    | some ctx =>
      simp only [generate_with_groq, generate_with_allam_hf,
        generate_with_kimi, hg, Except.map]
      rw [attemptChain_ok_short _ hcl, attemptChain_error]
  · intro ctx hx
    rw [generate_contract_ai, hx]
    simp only [envAllReturn, generate_with_groq, generate_with_allam_hf,
      generate_with_kimi, Except.map]
    rw [attemptChain_ok_short _ hcl, attemptChain_ok_short _ hr,
      attemptChain_ok_short _ hr]
    simp [attemptChain, get_template_contract, hx]

/-- C5 witness: a concrete 4-character backend result is skipped. -/
theorem claim_C5_witness :
    generate_contract_ai (envAllReturn "قصير") "أ" "ب" "بضائع" "1" "supply"
      "2025/01/01" =
    generate_contract_ai
      { envAllReturn "قصير" with groq := fun _ _ => Except.error () }
      "أ" "ب" "بضائع" "1" "supply" "2025/01/01" :=
  (claim_C5 (envAllReturn "قصير") "قصير" (by decide) rfl "أ" "ب" "بضائع" "1"
    "supply" "2025/01/01").1

/-- C8: only the primary backend (Groq) pipes its raw output through
`clean_ai_output` (line 218); the HuggingFace and Kimi backends return the
raw completion verbatim (lines 66-68 and 264).  End to end: with the
primary failing and the secondary succeeding, `generate_contract_ai`
returns the secondary's text unsanitized; with the primary succeeding it
returns the sanitized text. -/
theorem claim_C8 (env : ProviderEnv) (ps pu r : String) :
    (env.groq ps pu = Except.ok r →
      generate_with_groq env ps pu = Except.ok (clean_ai_output r)) ∧
    (env.hf ps pu = Except.ok r →
      generate_with_allam_hf env ps pu = Except.ok r) ∧
    (env.kimi ps pu = Except.ok r →
      generate_with_kimi env ps pu = Except.ok r) ∧
    (∀ supplier buyer items price contract_type today ctx,
      extract_contract_context items = some ctx →
      env.groq = (fun _ _ => Except.error ()) →
      env.hf = (fun _ _ => Except.ok r) → 100 < r.length →
      generate_contract_ai env supplier buyer items price contract_type
        today = Except.ok r) ∧
    (∀ supplier buyer items price contract_type today ctx,
      extract_contract_context items = some ctx →
      env.groq = (fun _ _ => Except.ok r) →
      100 < (clean_ai_output r).length →
      generate_contract_ai env supplier buyer items price contract_type
        today = Except.ok (clean_ai_output r)) := by
  refine ⟨?_, ?_, ?_, ?_, ?_⟩
  · intro h; simp [generate_with_groq, h, Except.map]
  · intro h; simp [generate_with_allam_hf, h]
  · intro h; simp [generate_with_kimi, h]
  · intro supplier buyer items price contract_type today ctx hx hgroq hhf hlen
    have hne : r ≠ "" := by
      intro he
      rw [he] at hlen
      simp at hlen
    rw [generate_contract_ai, hx]
    simp only [generate_with_groq, generate_with_allam_hf, hgroq, hhf,
      Except.map]
    rw [attemptChain_error, attemptChain]
    simp [hne, hlen]
  · intro supplier buyer items price contract_type today ctx hx hgroq hlen
    have hne : clean_ai_output r ≠ "" := by
      intro he
      rw [he] at hlen
      simp at hlen
    rw [generate_contract_ai, hx]
    simp only [generate_with_groq, hgroq, Except.map]
    rw [attemptChain]
    simp [hne, hlen]

/-- C8 witness: a concrete secondary-backend result is returned verbatim. -/
theorem claim_C8_witness :
    generate_with_allam_hf (envAllReturn "نص العقد") "نظام" "طلب" =
      Except.ok "نص العقد" :=
  (claim_C8 (envAllReturn "نص العقد") "نظام" "طلب" "نص العقد").2.1 rfl

theorem generate_contract_ai_ok_of_extract (env : ProviderEnv)
    (supplier buyer items price contract_type today : String)
    (ctx : ContractContext)
    (hx : extract_contract_context items = some ctx) :
    ∃ t, generate_contract_ai env supplier buyer items price contract_type
      today = Except.ok t := by
  rw [generate_contract_ai, hx]
  simp only []
  cases hc : attemptChain
      [generate_with_groq env
        (buildPrompt contract_type supplier buyer price ctx).1
        (buildPrompt contract_type supplier buyer price ctx).2,
       generate_with_allam_hf env
        (buildPrompt contract_type supplier buyer price ctx).1
        (buildPrompt contract_type supplier buyer price ctx).2,
       generate_with_kimi env
        (buildPrompt contract_type supplier buyer price ctx).1
        (buildPrompt contract_type supplier buyer price ctx).2] with
  | some r => exact ⟨r, rfl⟩
  | none =>
    refine ⟨templateBody supplier buyer price today ctx, ?_⟩
    simp [get_template_contract, hx]

/-- C9: any `contract_type` outside the enum `{supply, service, nda,
rental}` falls to the default supply branch: the prompts and hence the
whole behavior coincide with those of `"supply"` for the same provider
responses, and (when context extraction succeeds) the call still returns a
result rather than failing. -/
theorem claim_C9 (ct : String)
    (hct : ct ∉ (["supply", "service", "nda", "rental"] : List String))
    (env : ProviderEnv) (supplier buyer items price today : String) :
    generate_contract_ai env supplier buyer items price ct today =
      generate_contract_ai env supplier buyer items price "supply" today ∧
    (∀ ctx, extract_contract_context items = some ctx →
      ∃ t, generate_contract_ai env supplier buyer items price ct today =
        Except.ok t) := by
  have h1 : ct ≠ "nda" := by rintro rfl; simp at hct
  have h2 : ct ≠ "service" := by rintro rfl; simp at hct
  have h3 : ct ≠ "rental" := by rintro rfl; simp at hct
  have hbp : ∀ ctx : ContractContext,
      buildPrompt ct supplier buyer price ctx =
        buildPrompt "supply" supplier buyer price ctx := by
    intro ctx
    rw [buildPrompt, buildPrompt]
    simp [h1, h2, h3]
  constructor
  · rw [generate_contract_ai, generate_contract_ai]
    simp only [hbp]
  · intro ctx hx
    exact generate_contract_ai_ok_of_extract env supplier buyer items price
      ct today ctx hx

/-- C9 witness: the unknown type `"partnership"` behaves as `"supply"`. -/
theorem claim_C9_witness :
    generate_contract_ai envAllFail "أ" "ب" "بضائع" "9" "partnership"
      "2025/01/01" =
    generate_contract_ai envAllFail "أ" "ب" "بضائع" "9" "supply"
      "2025/01/01" :=
  (claim_C9 "partnership" (by decide) envAllFail "أ" "ب" "بضائع" "9"
    "2025/01/01").1
